import Mathlib

/-!
Verification of `scripts/together-upload.py`: a small utility that uploads a
local file to the Together AI file-storage API and prints a JSON object with
the resulting file identifier on stdout.

The script is a single linear execution path.  We embed it as a pure function
`run` over a `World` that records everything the script observes: the process
environment, the argument vector (Python `sys.argv`, program name included),
the local filesystem (existence and size of files), and the behaviour of the
Together SDK (whether the import, the client construction, or the upload call
raises, and what the upload returns).  `run` produces the trace of steps the
script performs, the single JSON object it prints, and its exit code.
-/

namespace TogetherUpload

/-- The value returned by `client.files.upload`.  `result.id` is accessed
directly by the script; `filename` and `bytes` are read with `getattr` and a
default, so they may be absent. -/
structure UploadResult where
  id : String
  filename : Option String
  bytes : Option Nat
deriving DecidableEq, Repr

/-- Behaviour of the Together SDK in a given execution: the SDK import
statement on line 32 may raise (`importErr`), the `Together()` constructor
may raise (`clientErr`), and the upload call itself either raises with a
message or returns an `UploadResult`. -/
structure SDK where
  importErr : Option String
  clientErr : Option String
  upload : String → String → Except String UploadResult

/-- Everything the script observes about the outside world. -/
structure World where
  environ : List (String × String)
  argv : List String
  fileExists : String → Bool
  fileSize : String → Nat
  sdk : SDK

/-- The steps the script can perform, in source order. -/
inductive Event where
  /-- the `'TOGETHER_API_KEY' not in os.environ` membership test (line 13) -/
  | checkEnv : Event
  /-- the `len(sys.argv) < 2` argument validation (line 17) -/
  | checkArgs : Event
  /-- the `os.path.exists(filepath)` test (line 24) -/
  | checkFile : String → Event
  /-- setting `TOGETHER_NO_BANNER` (line 30) -/
  | setBanner : Event
  /-- the `from together import Together` statement (line 32) -/
  | importSDK : Event
  /-- the `Together()` client construction (line 33) -/
  | newClient : Event
  /-- the remote `client.files.upload(filepath, purpose=purpose)` call
  (line 35), with the filepath and purpose it is passed -/
  | uploadCall : String → String → Event
deriving DecidableEq, Repr

/-- The single JSON object the script prints: either `{"error": msg}` or
`{"id": ..., "filename": ..., "bytes": ...}`. -/
inductive Output where
  | errObj : String → Output
  | success : (id : String) → (filename : String) → (bytes : Nat) → Output
deriving DecidableEq, Repr

/-- Whether the printed object is an error object (has an `"error"` field). -/
def Output.isErr : Output → Bool
  | .errObj _ => true
  | .success _ _ _ => false

/-- Result of one execution: the trace of performed steps, the one JSON
object printed on stdout, and the process exit code. -/
structure RunResult where
  trace : List Event
  out : Output
  exitCode : Nat
deriving Repr

/-- Python `'TOGETHER_API_KEY' in os.environ`. -/
def envHasKey (environ : List (String × String)) : Bool :=
  environ.any fun p => p.1 == "TOGETHER_API_KEY"

/-- Python `os.path.basename` on a POSIX path: the part after the last
slash. -/
def basename (p : String) : String :=
  (p.splitOn "/").getLastD ""

/-- The purpose argument: `sys.argv[2] if len(sys.argv) > 2 else
"fine-tune"` (line 22). -/
def purposeOf (argv : List String) : String :=
  if argv.length > 2 then argv.getD 2 "" else "fine-tune"

/-- The full order of steps a complete execution performs (lines 13-35). -/
def canonicalOrder (fp purpose : String) : List Event :=
  [.checkEnv, .checkArgs, .checkFile fp, .setBanner, .importSDK, .newClient,
   .uploadCall fp purpose]

/-- The script, lines 13-45, as a function of the observed world.  Each
early-exit branch prints one error object and exits with status 1; falling
off the end of the script exits with status 0. -/
def run (w : World) : RunResult :=
  if envHasKey w.environ = false then
    ⟨[.checkEnv], .errObj "TOGETHER_API_KEY not set", 1⟩
  else if w.argv.length < 2 then
    ⟨[.checkEnv, .checkArgs],
     .errObj "Usage: python together-upload.py <filepath> [purpose]", 1⟩
  else
    let filepath := w.argv.getD 1 ""
    let purpose := purposeOf w.argv
    if w.fileExists filepath = false then
      ⟨[.checkEnv, .checkArgs, .checkFile filepath],
       .errObj ("File not found: " ++ filepath), 1⟩
    else
      match w.sdk.importErr with
      | some m =>
        ⟨[.checkEnv, .checkArgs, .checkFile filepath, .setBanner, .importSDK],
         .errObj m, 1⟩
      | none =>
        match w.sdk.clientErr with
        | some m =>
          ⟨[.checkEnv, .checkArgs, .checkFile filepath, .setBanner,
            .importSDK, .newClient], .errObj m, 1⟩
        | none =>
          match w.sdk.upload filepath purpose with
          | .error m => ⟨canonicalOrder filepath purpose, .errObj m, 1⟩
          | .ok r =>
            ⟨canonicalOrder filepath purpose,
             .success r.id (r.filename.getD (basename filepath))
               (r.bytes.getD (w.fileSize filepath)), 0⟩

/-- The upload events in a trace. -/
def uploadCalls (t : List Event) : List Event :=
  t.filter fun e => match e with
    | .uploadCall _ _ => true
    | _ => false

/-- A world where everything succeeds: the key is set, a path argument is
given, the file exists, and the SDK upload returns a bare result. -/
def wOk : World where
  environ := [("TOGETHER_API_KEY", "k")]
  argv := ["together-upload.py", "/tmp/data.jsonl"]
  fileExists := fun p => p == "/tmp/data.jsonl"
  fileSize := fun _ => 42
  sdk :=
    { importErr := none
      clientErr := none
      upload := fun _ _ => .ok ⟨"file-abc", none, none⟩ }

/-- A world whose environment lacks `TOGETHER_API_KEY`. -/
def wNoKey : World where
  environ := [("PATH", "/usr/bin")]
  argv := ["together-upload.py", "/tmp/data.jsonl"]
  fileExists := fun _ => true
  fileSize := fun _ => 0
  sdk :=
    { importErr := none
      clientErr := none
      upload := fun _ _ => .ok ⟨"file-abc", none, none⟩ }

/-- A world invoked without the required path argument. -/
def wNoArgs : World where
  environ := [("TOGETHER_API_KEY", "k")]
  argv := ["together-upload.py"]
  fileExists := fun _ => true
  fileSize := fun _ => 0
  sdk :=
    { importErr := none
      clientErr := none
      upload := fun _ _ => .ok ⟨"file-abc", none, none⟩ }

/-- A world where the named file does not exist locally. -/
def wNoFile : World where
  environ := [("TOGETHER_API_KEY", "k")]
  argv := ["together-upload.py", "/tmp/missing.jsonl"]
  fileExists := fun _ => false
  fileSize := fun _ => 0
  sdk :=
    { importErr := none
      clientErr := none
      upload := fun _ _ => .ok ⟨"file-abc", none, none⟩ }

/-- A world where the upload call itself raises. -/
def wUploadFail : World where
  environ := [("TOGETHER_API_KEY", "k")]
  argv := ["together-upload.py", "/tmp/data.jsonl"]
  fileExists := fun p => p == "/tmp/data.jsonl"
  fileSize := fun _ => 7
  sdk :=
    { importErr := none
      clientErr := none
      upload := fun _ _ => .error "HTTP 401 Unauthorized" }

/-- A world with a second argument and a result carrying its own filename
and byte count. -/
def wFull : World where
  environ := [("TOGETHER_API_KEY", "k")]
  argv := ["together-upload.py", "/tmp/data.jsonl", "eval"]
  fileExists := fun p => p == "/tmp/data.jsonl"
  fileSize := fun _ => 42
  sdk :=
    { importErr := none
      clientErr := none
      upload := fun _ _ => .ok ⟨"file-xyz", some "remote.jsonl", some 99⟩ }

/-! Branch characterisations of `run`, one per exit point of the script.
These are shared helper lemmas used by several of the claim theorems. -/

/-- Line 13-15: the key is missing. -/
theorem run_eq_no_key (w : World) (hk : envHasKey w.environ = false) :
    run w = ⟨[.checkEnv], .errObj "TOGETHER_API_KEY not set", 1⟩ := by
  simp [run, hk]

/-- Line 17-19: the key is present but the path argument is missing. -/
theorem run_eq_no_args (w : World) (hk : envHasKey w.environ = true)
    (ha : w.argv.length < 2) :
    run w = ⟨[.checkEnv, .checkArgs],
             .errObj "Usage: python together-upload.py <filepath> [purpose]",
             1⟩ := by
  simp [run, hk, ha]

/-- Line 24-26: the file does not exist. -/
theorem run_eq_no_file (w : World) (hk : envHasKey w.environ = true)
    (ha : ¬ w.argv.length < 2)
    (hf : w.fileExists (w.argv.getD 1 "") = false) :
    run w = ⟨[.checkEnv, .checkArgs, .checkFile (w.argv.getD 1 "")],
             .errObj ("File not found: " ++ w.argv.getD 1 ""), 1⟩ := by
  simp only [List.getD_eq_getElem?_getD] at hf ⊢
  simp [run, hk, ha, hf]

/-- Line 32 raises: the SDK import fails. -/
theorem run_eq_import_err (w : World) (m : String)
    (hk : envHasKey w.environ = true) (ha : ¬ w.argv.length < 2)
    (hf : w.fileExists (w.argv.getD 1 "") = true)
    (hi : w.sdk.importErr = some m) :
    run w = ⟨[.checkEnv, .checkArgs, .checkFile (w.argv.getD 1 ""),
              .setBanner, .importSDK], .errObj m, 1⟩ := by
  simp only [List.getD_eq_getElem?_getD] at hf ⊢
  simp [run, hk, ha, hf, hi]

/-- Line 33 raises: the client construction fails. -/
theorem run_eq_client_err (w : World) (m : String)
    (hk : envHasKey w.environ = true) (ha : ¬ w.argv.length < 2)
    (hf : w.fileExists (w.argv.getD 1 "") = true)
    (hi : w.sdk.importErr = none) (hc : w.sdk.clientErr = some m) :
    run w = ⟨[.checkEnv, .checkArgs, .checkFile (w.argv.getD 1 ""),
              .setBanner, .importSDK, .newClient], .errObj m, 1⟩ := by
  simp only [List.getD_eq_getElem?_getD] at hf ⊢
  simp [run, hk, ha, hf, hi, hc]

/-- Line 35 raises: the upload call itself fails. -/
theorem run_eq_upload_err (w : World) (m : String)
    (hk : envHasKey w.environ = true) (ha : ¬ w.argv.length < 2)
    (hf : w.fileExists (w.argv.getD 1 "") = true)
    (hi : w.sdk.importErr = none) (hc : w.sdk.clientErr = none)
    (hu : w.sdk.upload (w.argv.getD 1 "") (purposeOf w.argv) = .error m) :
    run w = ⟨canonicalOrder (w.argv.getD 1 "") (purposeOf w.argv),
             .errObj m, 1⟩ := by
  simp only [List.getD_eq_getElem?_getD] at hf hu ⊢
  simp [run, hk, ha, hf, hi, hc, hu]

/-- Lines 35-42: the upload succeeds and the success object is printed. -/
theorem run_eq_upload_ok (w : World) (r : UploadResult)
    (hk : envHasKey w.environ = true) (ha : ¬ w.argv.length < 2)
    (hf : w.fileExists (w.argv.getD 1 "") = true)
    (hi : w.sdk.importErr = none) (hc : w.sdk.clientErr = none)
    (hu : w.sdk.upload (w.argv.getD 1 "") (purposeOf w.argv) = .ok r) :
    run w = ⟨canonicalOrder (w.argv.getD 1 "") (purposeOf w.argv),
             .success r.id (r.filename.getD (basename (w.argv.getD 1 "")))
               (r.bytes.getD (w.fileSize (w.argv.getD 1 ""))), 0⟩ := by
  simp only [List.getD_eq_getElem?_getD] at hf hu ⊢
  simp [run, hk, ha, hf, hi, hc, hu]

/-- C1: when the API key is set, a path argument is present, the local file
exists, and the remote upload call returns a result, the script prints a
single JSON object whose fields are exactly the identifier returned by the
remote service, a filename, and a size in bytes. -/
theorem upload_success_prints_id_filename_bytes (w : World) (r : UploadResult)
    (hk : envHasKey w.environ = true)
    (ha : 2 ≤ w.argv.length)
    (hf : w.fileExists (w.argv.getD 1 "") = true)
    (hi : w.sdk.importErr = none)
    (hc : w.sdk.clientErr = none)
    (hu : w.sdk.upload (w.argv.getD 1 "") (purposeOf w.argv) = .ok r) :
    ∃ f b, (run w).out = .success r.id f b := by
  have ha' : ¬ w.argv.length < 2 := by omega
  simp only [List.getD_eq_getElem?_getD] at hf hu
  refine ⟨r.filename.getD (basename (w.argv.getD 1 "")),
          r.bytes.getD (w.fileSize (w.argv.getD 1 "")), ?_⟩
  simp [run, hk, ha', hf, hi, hc, hu]

/-- Witness for C1 at the world `wOk`. -/
theorem upload_success_prints_id_filename_bytes_witness :
    ∃ f b, (run wOk).out = .success "file-abc" f b :=
  upload_success_prints_id_filename_bytes wOk ⟨"file-abc", none, none⟩
    rfl (by decide) rfl rfl rfl rfl

/-- C2: when `TOGETHER_API_KEY` is absent from the environment, the script
prints a structured error object and exits non-zero, having performed only
the environment check: no argument validation, no file-existence check, no
upload call. -/
theorem missing_key_fails_fast (w : World)
    (hk : envHasKey w.environ = false) :
    (run w).trace = [.checkEnv] ∧
    (run w).out = .errObj "TOGETHER_API_KEY not set" ∧
    (run w).exitCode ≠ 0 := by
  simp [run, hk]

/-- Witness for C2 at the world `wNoKey`. -/
theorem missing_key_fails_fast_witness :
    (run wNoKey).trace = [.checkEnv] ∧
    (run wNoKey).out = .errObj "TOGETHER_API_KEY not set" ∧
    (run wNoKey).exitCode ≠ 0 :=
  missing_key_fails_fast wNoKey rfl

/-- C3: when invoked without the required path argument, the script prints
an error object with a message, exits non-zero, and never invokes the
remote upload call. -/
theorem missing_path_arg_errors (w : World)
    (ha : w.argv.length < 2) :
    (run w).out.isErr = true ∧
    (run w).exitCode ≠ 0 ∧
    uploadCalls (run w).trace = [] := by
  cases hk : envHasKey w.environ with
  | true => simp [run, hk, ha, uploadCalls, Output.isErr]
  | false => simp [run, hk, uploadCalls, Output.isErr]

/-- Witness for C3 at the world `wNoArgs`. -/
theorem missing_path_arg_errors_witness :
    (run wNoArgs).out.isErr = true ∧
    (run wNoArgs).exitCode ≠ 0 ∧
    uploadCalls (run wNoArgs).trace = [] :=
  missing_path_arg_errors wNoArgs (by decide)

/-- C4: when the key is set and a path argument is given but no file exists
at that path, the script prints an error object naming the missing file and
exits non-zero; its trace stops at the file-existence check, so the upload
call is never invoked and nothing is mutated. -/
theorem missing_file_errors (w : World)
    (hk : envHasKey w.environ = true)
    (ha : 2 ≤ w.argv.length)
    (hf : w.fileExists (w.argv.getD 1 "") = false) :
    (run w).out = .errObj ("File not found: " ++ w.argv.getD 1 "") ∧
    (run w).exitCode ≠ 0 ∧
    (run w).trace = [.checkEnv, .checkArgs, .checkFile (w.argv.getD 1 "")] := by
  have ha' : ¬ w.argv.length < 2 := by omega
  simp only [List.getD_eq_getElem?_getD] at hf
  simp [run, hk, ha', hf]

/-- Witness for C4 at the world `wNoFile`. -/
theorem missing_file_errors_witness :
    (run wNoFile).out = .errObj ("File not found: " ++ "/tmp/missing.jsonl") ∧
    (run wNoFile).exitCode ≠ 0 ∧
    (run wNoFile).trace =
      [.checkEnv, .checkArgs, .checkFile "/tmp/missing.jsonl"] :=
  missing_file_errors wNoFile rfl (by decide) rfl

/-- C5: when any step of the upload attempt raises — the SDK import, the
client construction, or the upload call itself — the script prints an error
object carrying that error's message and exits non-zero. -/
theorem attempt_exception_errors (w : World) (m : String)
    (hk : envHasKey w.environ = true)
    (ha : 2 ≤ w.argv.length)
    (hf : w.fileExists (w.argv.getD 1 "") = true)
    (he : w.sdk.importErr = some m ∨
      (w.sdk.importErr = none ∧ w.sdk.clientErr = some m) ∨
      (w.sdk.importErr = none ∧ w.sdk.clientErr = none ∧
        w.sdk.upload (w.argv.getD 1 "") (purposeOf w.argv) = .error m)) :
    (run w).out = .errObj m ∧ (run w).exitCode ≠ 0 := by
  have ha' : ¬ w.argv.length < 2 := by omega
  simp only [List.getD_eq_getElem?_getD] at hf he
  rcases he with hi | ⟨hi, hc⟩ | ⟨hi, hc, hu⟩
  · simp [run, hk, ha', hf, hi]
  · simp [run, hk, ha', hf, hi, hc]
  · simp [run, hk, ha', hf, hi, hc, hu]

/-- Witness for C5 at the world `wUploadFail`. -/
theorem attempt_exception_errors_witness :
    (run wUploadFail).out = .errObj "HTTP 401 Unauthorized" ∧
    (run wUploadFail).exitCode ≠ 0 :=
  attempt_exception_errors wUploadFail "HTTP 401 Unauthorized"
    rfl (by decide) rfl (Or.inr (Or.inr ⟨rfl, rfl, rfl⟩))

/-- C6: every execution performs its steps in the source's fixed order — its
trace is a prefix of the canonical step order — and when several
preconditions fail at once the error reported is the one for the earliest
step: a missing key wins over everything, a missing argument wins over a
missing file. -/
theorem steps_in_fixed_order (w : World) :
    (∃ fp p rest, canonicalOrder fp p = (run w).trace ++ rest) ∧
    (envHasKey w.environ = false →
      (run w).out = .errObj "TOGETHER_API_KEY not set") ∧
    (envHasKey w.environ = true → w.argv.length < 2 →
      (run w).out =
        .errObj "Usage: python together-upload.py <filepath> [purpose]") ∧
    (envHasKey w.environ = true → 2 ≤ w.argv.length →
      w.fileExists (w.argv.getD 1 "") = false →
      (run w).out = .errObj ("File not found: " ++ w.argv.getD 1 "")) := by
  cases hk : envHasKey w.environ with
  | false =>
      rw [run_eq_no_key w hk]
      refine ⟨⟨"", "", [.checkArgs, .checkFile "", .setBanner, .importSDK,
        .newClient, .uploadCall "" ""], rfl⟩, fun _ => rfl, ?_, ?_⟩
      · intro h _; exact Bool.noConfusion h
      · intro h _ _; exact Bool.noConfusion h
  | true =>
      by_cases ha : w.argv.length < 2
      · rw [run_eq_no_args w hk ha]
        refine ⟨⟨"", "", [.checkFile "", .setBanner, .importSDK, .newClient,
          .uploadCall "" ""], rfl⟩, ?_, fun _ _ => rfl, ?_⟩
        · intro h; exact Bool.noConfusion h
        · intro _ h2 _; exact absurd h2 (by omega)
      · cases hf : w.fileExists (w.argv.getD 1 "") with
        | false =>
            rw [run_eq_no_file w hk ha hf]
            refine ⟨⟨w.argv.getD 1 "", purposeOf w.argv,
              [.setBanner, .importSDK, .newClient,
               .uploadCall (w.argv.getD 1 "") (purposeOf w.argv)], rfl⟩,
              ?_, ?_, fun _ _ _ => rfl⟩
            · intro h; exact Bool.noConfusion h
            · intro _ h2; exact absurd h2 ha
        | true =>
            have hpre : ∃ rest,
                canonicalOrder (w.argv.getD 1 "") (purposeOf w.argv) =
                  (run w).trace ++ rest := by
              cases hi : w.sdk.importErr with
              | some m =>
                  rw [run_eq_import_err w m hk ha hf hi]
                  exact ⟨[.newClient,
                    .uploadCall (w.argv.getD 1 "") (purposeOf w.argv)], rfl⟩
              | none =>
                  cases hc : w.sdk.clientErr with
                  | some m =>
                      rw [run_eq_client_err w m hk ha hf hi hc]
                      exact ⟨[.uploadCall (w.argv.getD 1 "")
                        (purposeOf w.argv)], rfl⟩
                  | none =>
                      cases hu : w.sdk.upload (w.argv.getD 1 "")
                          (purposeOf w.argv) with
                      | error m =>
                          rw [run_eq_upload_err w m hk ha hf hi hc hu]
                          exact ⟨[], by simp⟩
                      | ok r =>
                          rw [run_eq_upload_ok w r hk ha hf hi hc hu]
                          exact ⟨[], by simp⟩
            obtain ⟨rest, hrest⟩ := hpre
            refine ⟨⟨_, _, rest, hrest⟩, ?_, ?_, ?_⟩
            · intro h; exact Bool.noConfusion h
            · intro _ h2; exact absurd h2 ha
            · intro _ _ h3; exact Bool.noConfusion h3

/-- Witness for C6 at the world `wOk`. -/
theorem steps_in_fixed_order_witness :
    (∃ fp p rest, canonicalOrder fp p = (run wOk).trace ++ rest) ∧
    (envHasKey wOk.environ = false →
      (run wOk).out = .errObj "TOGETHER_API_KEY not set") ∧
    (envHasKey wOk.environ = true → wOk.argv.length < 2 →
      (run wOk).out =
        .errObj "Usage: python together-upload.py <filepath> [purpose]") ∧
    (envHasKey wOk.environ = true → 2 ≤ wOk.argv.length →
      wOk.fileExists (wOk.argv.getD 1 "") = false →
      (run wOk).out = .errObj ("File not found: " ++ wOk.argv.getD 1 "")) :=
  steps_in_fixed_order wOk

/-- C7: the remote upload call is invoked at most once per execution: every
trace contains at most one upload event, so there is no retry and no second
remote call. -/
theorem upload_called_at_most_once (w : World) :
    (uploadCalls (run w).trace).length ≤ 1 := by
  cases hk : envHasKey w.environ with
  | false => rw [run_eq_no_key w hk]; simp [uploadCalls]
  | true =>
      by_cases ha : w.argv.length < 2
      · rw [run_eq_no_args w hk ha]; simp [uploadCalls]
      · cases hf : w.fileExists (w.argv.getD 1 "") with
        | false => rw [run_eq_no_file w hk ha hf]; simp [uploadCalls]
        | true =>
            cases hi : w.sdk.importErr with
            | some m =>
                rw [run_eq_import_err w m hk ha hf hi]; simp [uploadCalls]
            | none =>
                cases hc : w.sdk.clientErr with
                | some m =>
                    rw [run_eq_client_err w m hk ha hf hi hc]
                    simp [uploadCalls]
                | none =>
                    cases hu : w.sdk.upload (w.argv.getD 1 "")
                        (purposeOf w.argv) with
                    | error m =>
                        rw [run_eq_upload_err w m hk ha hf hi hc hu]
                        simp [uploadCalls, canonicalOrder]
                    | ok r =>
                        rw [run_eq_upload_ok w r hk ha hf hi hc hu]
                        simp [uploadCalls, canonicalOrder]

/-- Witness for C7 at the world `wOk`. -/
theorem upload_called_at_most_once_witness :
    (uploadCalls (run wOk).trace).length ≤ 1 :=
  upload_called_at_most_once wOk

/-- C8: the script exits non-zero exactly when it printed an error object;
when it printed the success object it exits with status zero. -/
theorem exit_nonzero_iff_error (w : World) :
    (run w).exitCode ≠ 0 ↔ (run w).out.isErr = true := by
  cases hk : envHasKey w.environ with
  | false => rw [run_eq_no_key w hk]; simp [Output.isErr]
  | true =>
      by_cases ha : w.argv.length < 2
      · rw [run_eq_no_args w hk ha]; simp [Output.isErr]
      · cases hf : w.fileExists (w.argv.getD 1 "") with
        | false => rw [run_eq_no_file w hk ha hf]; simp [Output.isErr]
        | true =>
            cases hi : w.sdk.importErr with
            | some m =>
                rw [run_eq_import_err w m hk ha hf hi]; simp [Output.isErr]
            | none =>
                cases hc : w.sdk.clientErr with
                | some m =>
                    rw [run_eq_client_err w m hk ha hf hi hc]
                    simp [Output.isErr]
                | none =>
                    cases hu : w.sdk.upload (w.argv.getD 1 "")
                        (purposeOf w.argv) with
                    | error m =>
                        rw [run_eq_upload_err w m hk ha hf hi hc hu]
                        simp [Output.isErr]
                    | ok r =>
                        rw [run_eq_upload_ok w r hk ha hf hi hc hu]
                        simp [Output.isErr]

/-- Witness for C8 at the world `wOk`. -/
theorem exit_nonzero_iff_error_witness :
    (run wOk).exitCode ≠ 0 ↔ (run wOk).out.isErr = true :=
  exit_nonzero_iff_error wOk

/-- C9: when the attempt is reached, the upload is invoked with the purpose
string "fine-tune" if no second argument was given, and with exactly the
second argument otherwise. -/
theorem purpose_defaults_to_fine_tune (w : World)
    (hk : envHasKey w.environ = true)
    (ha : 2 ≤ w.argv.length)
    (hf : w.fileExists (w.argv.getD 1 "") = true)
    (hi : w.sdk.importErr = none)
    (hc : w.sdk.clientErr = none) :
    Event.uploadCall (w.argv.getD 1 "")
        (if w.argv.length = 2 then "fine-tune" else w.argv.getD 2 "")
      ∈ (run w).trace := by
  have ha' : ¬ w.argv.length < 2 := by omega
  have hp : purposeOf w.argv =
      (if w.argv.length = 2 then "fine-tune" else w.argv.getD 2 "") := by
    unfold purposeOf
    rcases Nat.lt_or_ge 2 w.argv.length with h | h
    · rw [if_pos h, if_neg (by omega)]
    · have h2 : w.argv.length = 2 := by omega
      rw [if_neg (by omega), if_pos h2]
  rw [← hp]
  cases hu : w.sdk.upload (w.argv.getD 1 "") (purposeOf w.argv) with
  | error m =>
      rw [run_eq_upload_err w m hk ha' hf hi hc hu]
      simp [canonicalOrder]
  | ok r =>
      rw [run_eq_upload_ok w r hk ha' hf hi hc hu]
      simp [canonicalOrder]

/-- Witness for C9 at the world `wOk` (no second argument). -/
theorem purpose_defaults_to_fine_tune_witness :
    Event.uploadCall (wOk.argv.getD 1 "")
        (if wOk.argv.length = 2 then "fine-tune" else wOk.argv.getD 2 "")
      ∈ (run wOk).trace :=
  purpose_defaults_to_fine_tune wOk rfl (by decide) rfl rfl rfl

/-- C10: on a successful upload the emitted filename is the result's own
filename when present and otherwise the basename of the local path, and the
emitted byte count is the result's own when present and otherwise the local
file's size. -/
theorem output_fallback_filename_bytes (w : World) (r : UploadResult)
    (hk : envHasKey w.environ = true)
    (ha : 2 ≤ w.argv.length)
    (hf : w.fileExists (w.argv.getD 1 "") = true)
    (hi : w.sdk.importErr = none)
    (hc : w.sdk.clientErr = none)
    (hu : w.sdk.upload (w.argv.getD 1 "") (purposeOf w.argv) = .ok r) :
    (run w).out = .success r.id
      (match r.filename with
       | some f => f
       | none => basename (w.argv.getD 1 ""))
      (match r.bytes with
       | some b => b
       | none => w.fileSize (w.argv.getD 1 "")) := by
  have ha' : ¬ w.argv.length < 2 := by omega
  rw [run_eq_upload_ok w r hk ha' hf hi hc hu]
  obtain ⟨rid, rfn, rb⟩ := r
  cases rfn <;> cases rb <;> rfl

/-- Witness for C10 at the world `wFull`, whose result carries its own
filename and byte count. -/
theorem output_fallback_filename_bytes_witness :
    (run wFull).out = .success "file-xyz"
      (match (some "remote.jsonl" : Option String) with
       | some f => f
       | none => basename (wFull.argv.getD 1 ""))
      (match (some 99 : Option Nat) with
       | some b => b
       | none => wFull.fileSize (wFull.argv.getD 1 "")) :=
  output_fallback_filename_bytes wFull ⟨"file-xyz", some "remote.jsonl", some 99⟩
    rfl (by decide) rfl rfl rfl rfl

end TogetherUpload
